import Mathlib

/-!
Shallow embedding of the CUBRID Prometheus exporter's scrape core
(`collector/exporter.go` = src/unnamed/part_001, `cubrid_exporter.go` =
src/unnamed/part_003, `collector/broker_status.go` = src/unnamed/part_000,
`collector/spacedb.go`, `collector/statdump.go` inside src/unnamed/part_001,
`collector/scraper.go`).

Conventions of the embedding:
- Go `float64` values carried by Prometheus samples are modelled by `GoFloat`,
  a rational number extended with the IEEE special values NaN / +Inf / -Inf
  that the exporter's derived-ratio arithmetic can hit.
- `strconv.ParseFloat` is Go standard-library code, external to this
  repository; scrapers are parameterised by a parse function
  `pf : String → Option ℚ` (`none` = parse error).  A failed
  `strconv.ParseFloat` returns the zero value, which `parseOr0` mirrors.
- Wall-clock durations (`time.Since`) are oracle inputs (`ℚ` parameters).
- Database reads are oracle inputs: each scraper takes the already-scanned
  rows it would receive, and the orchestrator takes, per scraper, the
  samples that scraper's `Scrape` sent plus whether it returned an error.
-/

/-- Model of a Go `float64` as carried by a Prometheus sample: a rational
value or one of the IEEE special values the exporter's arithmetic can
produce. -/
inductive GoFloat where
  | nan
  | inf
  | ninf
  | val (q : ℚ)
deriving DecidableEq, Repr

/-- IEEE division on the `GoFloat` values the exporter can produce:
`0/0 = NaN`, `x/0 = ±Inf` for `x ≠ 0`, otherwise exact rational division. -/
def fdiv (a b : ℚ) : GoFloat :=
  if b = 0 then
    if a = 0 then GoFloat.nan
    else if a > 0 then GoFloat.inf
    else GoFloat.ninf
  else GoFloat.val (a / b)

/-- Multiplication of a `GoFloat` by a positive rational constant (the
exporter only multiplies by `100`). -/
def fmulPos (x : GoFloat) (c : ℚ) : GoFloat :=
  match x with
  | GoFloat.nan => GoFloat.nan
  | GoFloat.inf => GoFloat.inf
  | GoFloat.ninf => GoFloat.ninf
  | GoFloat.val q => GoFloat.val (q * c)

/-- Result of `strconv.ParseFloat(s, 64)` when the error is discarded with
`count, _ :=` : the parsed value on success, the zero value on failure. -/
def parseOr0 (pf : String → Option ℚ) (s : String) : ℚ :=
  (pf s).getD 0

/-- The Prometheus namespace constant of the exporter.  Modelled from the
spec: the Go file defining `namespace` is not under src/ (only its uses
are); the spec names the metric families `up`, `last_scrape_error`, … of a
CUBRID exporter, so the namespace is the product name. -/
def namespaceStr : String := "cubrid"

/-- `prometheus.BuildFQName`: joins namespace, subsystem and name with
`_`, skipping empty components. -/
def buildFQName (ns sub name : String) : String :=
  (if ns = "" then "" else ns ++ "_") ++ (if sub = "" then "" else sub ++ "_") ++ name

/-- One emitted metric observation: metric-family name, `float64` value and
ordered label values (as passed to `prometheus.MustNewConstMetric`). -/
structure Sample where
  fqName : String
  value : GoFloat
  labels : List String
deriving DecidableEq, Repr

/-- `scrapeDurationDesc`'s family name
(`cubrid_exporter_collector_duration_seconds`). -/
def scrapeDurationName : String := buildFQName namespaceStr "exporter" "collector_duration_seconds"

/-- The per-phase duration gauge sample the orchestrator emits
(`prometheus.MustNewConstMetric(scrapeDurationDesc, GaugeValue, d, label)`). -/
def durationSample (d : ℚ) (label : String) : Sample :=
  ⟨scrapeDurationName, GoFloat.val d, [label]⟩

/-! ## Scraper registry (src/unnamed/part_003, `var scrapers`) -/

/-- The closed set of scrapers registered in `cubrid_exporter.go`. -/
inductive ScraperKind where
  | brokerStatusK
  | statdumpK
  | spacedbK
deriving DecidableEq, Repr

/-- `Scraper.Name()` of each registered scraper. -/
def ScraperKind.name : ScraperKind → String
  | ScraperKind.brokerStatusK => "broker_status"
  | ScraperKind.statdumpK => "statdump"
  | ScraperKind.spacedbK => "spacedb"

/-- `Scraper.Version()` of each registered scraper (all `10.2`). -/
def ScraperKind.version : ScraperKind → ℚ
  | _ => (102 : ℚ) / 10

/-- `var scrapers = map[collector.Scraper]bool{...}`: every registered
scraper with its enabled-by-default flag (all three default to `true`). -/
def scrapersRegistry : List (ScraperKind × Bool) :=
  [(ScraperKind.brokerStatusK, true), (ScraperKind.statdumpK, true), (ScraperKind.spacedbK, true)]

/-- The names of all registered scrapers. -/
def registeredScrapers : List ScraperKind := scrapersRegistry.map Prod.fst

/-- The default-enabled subset of the registry. -/
def defaultEnabled : List ScraperKind :=
  (scrapersRegistry.filter Prod.snd).map Prod.fst

/-- `main`'s per-scraper `--collect.<name>` flags default to the registry's
enabled-by-default value. -/
def defaultFlags (k : ScraperKind) : Bool :=
  (scrapersRegistry.lookup k).getD false

/-- `main`'s `enabledScrapers`: the registered scrapers whose flag is set. -/
def enabledScrapers (flags : ScraperKind → Bool) : List ScraperKind :=
  registeredScrapers.filter flags

/-- `newHandler`'s `collect[]` filtering: with at least one requested name,
keep exactly the handler's scrapers whose `Name()` occurs among the
requested names (`filters[scraper.Name()]`); with none, keep them all. -/
def filterScrapers (scrapers : List ScraperKind) (params : List String) : List ScraperKind :=
  if params.length > 0 then
    scrapers.filter (fun s => decide (s.name ∈ params))
  else scrapers

/-! ## Timeout-header handling (src/unnamed/part_003, `newHandler`) -/

/-- The effective timeout `newHandler` passes to `context.WithTimeout`
when the header parsed to `timeoutSeconds`: the offset is subtracted only
when it is strictly smaller than the header value, otherwise the header
value is used unadjusted (the `if *timeoutOffset >= timeoutSeconds` branch
only logs and skips the subtraction). -/
def effectiveTimeout (timeoutSeconds offset : ℚ) : ℚ :=
  if offset ≥ timeoutSeconds then timeoutSeconds else timeoutSeconds - offset

/-- The derived deadline of one request: `none` when no timeout context is
created (header absent/empty, or `strconv.ParseFloat` fails — logged and
ignored), `some t` when `context.WithTimeout(ctx, t·second)` is installed. -/
def deriveContextTimeout (header : String) (pf : String → Option ℚ) (offset : ℚ) : Option ℚ :=
  if header = "" then none
  else
    match pf header with
    | none => none
    | some t => some (effectiveTimeout t offset)

/-- One request through `newHandler`: the derived deadline and the scraper
set handed to `collector.New`; the handler always proceeds to register the
collector and serve (a bad header never aborts the request). -/
def handleRequest (header : String) (pf : String → Option ℚ) (offset : ℚ)
    (params : List String) (scrapers : List ScraperKind) :
    Option ℚ × List ScraperKind :=
  (deriveContextTimeout header pf offset, filterScrapers scrapers params)

/-! ## Exporter bookkeeping metrics (src/unnamed/part_001, `Metrics`) -/

/-- `collector.Metrics`: the process-wide bookkeeping metrics.  The
`CounterVec` `ScrapeErrors` is an association list from label value to
counter, in first-seen order (as `WithLabelValues` materialises children). -/
structure Metrics where
  totalScrapes : ℚ
  scrapeErrors : List (String × ℚ)
  error : ℚ
  cubridUp : ℚ
deriving DecidableEq, Repr

/-- `collector.NewMetrics()`: fresh counters and gauges, all zero. -/
def NewMetrics : Metrics :=
  ⟨0, [], 0, 0⟩

/-- `ScrapeErrors.WithLabelValues(l).Inc()`: bump the counter child for
label `l`, creating it at `1` when first seen. -/
def incErr (l : String) : List (String × ℚ) → List (String × ℚ)
  | [] => [(l, 1)]
  | (k, v) :: rest => if k = l then (k, v + 1) :: rest else (k, v) :: incErr l rest

/-- Read a `CounterVec` child (`0` when never incremented). -/
def getErr (l : String) (es : List (String × ℚ)) : ℚ :=
  (es.lookup l).getD 0

/-! ## Scrape orchestrator (src/unnamed/part_001, `Exporter.scrape` /
`Exporter.Collect`) -/

/-- Observable events of one scrape cycle: the `sql.Open` attempt, the
connection-capacity configuration calls, the deferred `db.Close()`, and
each `ch <- metric` send. -/
inductive Ev where
  | openAttempt
  | setMaxOpenConns (n : ℕ)
  | setMaxIdleConns (n : ℕ)
  | setConnMaxLifetimeSeconds (secs : ℚ)
  | closeConn
  | send (s : Sample)
deriving DecidableEq, Repr

/-- Oracle for one scraper goroutine of the fan-out loop: the scraper's
`Name()`, the samples its `Scrape` sent on `ch` before returning, whether
it returned a non-nil error, and its observed wall-clock duration. -/
structure ScraperRun where
  name : String
  samples : List Sample
  fails : Bool
  dur : ℚ
deriving DecidableEq, Repr

/-- One goroutine body of `Exporter.scrape`'s loop: forward the scraper's
samples; on error, bump `ScrapeErrors` for `"collect."+Name()` and set the
`Error` gauge; in every case emit the duration sample for that label. -/
def runScraper (m : Metrics) (r : ScraperRun) : Metrics × List Ev :=
  let label := "collect." ++ r.name
  let m' := if r.fails
    then { m with scrapeErrors := incErr label m.scrapeErrors, error := 1 }
    else m
  (m', r.samples.map Ev.send ++ [Ev.send (durationSample r.dur label)])

/-- The whole fan-out: the goroutines' metric updates are atomic and the
channel sends are multiplexed, so the cycle's final metric state and the
multiset of sends do not depend on the interleaving; this sequentialises
it in launch order. -/
def runScrapers (m : Metrics) : List ScraperRun → Metrics × List Ev
  | [] => (m, [])
  | r :: rs =>
    let p := runScraper m r
    let q := runScrapers p.1 rs
    (q.1, p.2 ++ q.2)

/-- `Exporter.scrape`: bump the scrape counter; attempt `sql.Open` — on
failure set the `Error` gauge and return (before `defer db.Close()` is
installed, so no close occurs); on success cap the pool at one open and
one idle connection with a one-minute maximum lifetime, set `CubridUp`,
clear `Error`, emit the `"connection"` duration sample, fan out the
scrapers and close the connection when the deferred calls run. -/
def scrape (openOk : Bool) (runs : List ScraperRun) (connDur : ℚ) (m : Metrics) :
    Metrics × List Ev :=
  let m0 := { m with totalScrapes := m.totalScrapes + 1 }
  if openOk then
    let m1 := { m0 with cubridUp := 1, error := 0 }
    let p := runScrapers m1 runs
    (p.1, [Ev.openAttempt, Ev.setMaxOpenConns 1, Ev.setMaxIdleConns 1,
           Ev.setConnMaxLifetimeSeconds 60,
           Ev.send (durationSample connDur "connection")] ++ p.2 ++ [Ev.closeConn])
  else
    ({ m0 with error := 1 }, [Ev.openAttempt])

/-- The `cubrid_exporter_scrapes_total` sample `Collect` sends. -/
def totalScrapesSample (m : Metrics) : Sample :=
  ⟨buildFQName namespaceStr "exporter" "scrapes_total", GoFloat.val m.totalScrapes, []⟩

/-- The `cubrid_exporter_last_scrape_error` sample `Collect` sends. -/
def errorSample (m : Metrics) : Sample :=
  ⟨buildFQName namespaceStr "exporter" "last_scrape_error", GoFloat.val m.error, []⟩

/-- The `cubrid_up` sample `Collect` sends. -/
def upSample (m : Metrics) : Sample :=
  ⟨buildFQName namespaceStr "" "up", GoFloat.val m.cubridUp, []⟩

/-- `ScrapeErrors.Collect`: one `cubrid_exporter_scrape_errors_total`
sample per materialised label child. -/
def scrapeErrorsSamples (m : Metrics) : List Sample :=
  m.scrapeErrors.map (fun p =>
    ⟨buildFQName namespaceStr "exporter" "scrape_errors_total", GoFloat.val p.2, [p.1]⟩)

/-- `Exporter.Collect`: run one scrape cycle, then send the bookkeeping
samples (total scrapes, error gauge, per-scraper error counters, up
gauge) in that order. -/
def Collect (openOk : Bool) (runs : List ScraperRun) (connDur : ℚ) (m : Metrics) :
    Metrics × List Ev :=
  let p := scrape openOk runs connDur m
  (p.1, p.2 ++ [Ev.send (totalScrapesSample p.1), Ev.send (errorSample p.1)]
       ++ (scrapeErrorsSamples p.1).map Ev.send ++ [Ev.send (upSample p.1)])

/-! ## Statdump scraper (src/unnamed/part_001, `ScrapeStatdump.Scrape`) -/

/-- `cubrid_statdump_info`'s family name. -/
def statdumpInfoName : String := buildFQName namespaceStr "statdump" "info"

/-- `ScrapeStatdump.Scrape` over already-scanned `(key, value)` rows: each
value must parse as a float; the first parse failure makes `Scrape` return
that error (the rows already forwarded stay on the channel).  Returns the
sent samples together with the error, if any. -/
def statdumpScrape (pf : String → Option ℚ) :
    List (String × String) → List Sample × Option String
  | [] => ([], none)
  | (key, value) :: rest =>
    match pf value with
    | none => ([], some value)
    | some floatValue =>
      let p := statdumpScrape pf rest
      (⟨statdumpInfoName, GoFloat.val floatValue, [key]⟩ :: p.1, p.2)

/-! ## Broker-status scraper (src/unnamed/part_000, `ScrapeBrokerStatus.Scrape`) -/

/-- `cubrid_broker_status_info`'s family name. -/
def brokerInfoName : String := buildFQName namespaceStr "broker_status" "info"

/-- One scanned row of `show brokers`. -/
structure BrokerRow where
  broker_name : String
  num_as : String
  pid : String
  port : String
  qsize : String
  num_select : String
  num_insert : String
  num_update : String
  num_delete : String
  num_trans : String
  num_query : String
  num_conns : String
  num_long_query : String
  num_error_query : String
  num_uniq_error : String
deriving DecidableEq, Repr

/-- The fourteen samples one broker row yields: every field is parsed with
the error discarded (`count, _ := strconv.ParseFloat(...)`, so an
unparseable field becomes `0`) and emitted under `(broker_name, key)`. -/
def brokerRowSamples (pf : String → Option ℚ) (r : BrokerRow) : List Sample :=
  [⟨brokerInfoName, GoFloat.val (parseOr0 pf r.num_as), [r.broker_name, "num_as"]⟩,
   ⟨brokerInfoName, GoFloat.val (parseOr0 pf r.pid), [r.broker_name, "pid"]⟩,
   ⟨brokerInfoName, GoFloat.val (parseOr0 pf r.port), [r.broker_name, "port"]⟩,
   ⟨brokerInfoName, GoFloat.val (parseOr0 pf r.qsize), [r.broker_name, "qsize"]⟩,
   ⟨brokerInfoName, GoFloat.val (parseOr0 pf r.num_select), [r.broker_name, "num_select"]⟩,
   ⟨brokerInfoName, GoFloat.val (parseOr0 pf r.num_insert), [r.broker_name, "num_insert"]⟩,
   ⟨brokerInfoName, GoFloat.val (parseOr0 pf r.num_update), [r.broker_name, "num_update"]⟩,
   ⟨brokerInfoName, GoFloat.val (parseOr0 pf r.num_delete), [r.broker_name, "num_delete"]⟩,
   ⟨brokerInfoName, GoFloat.val (parseOr0 pf r.num_trans), [r.broker_name, "num_trans"]⟩,
   ⟨brokerInfoName, GoFloat.val (parseOr0 pf r.num_query), [r.broker_name, "num_query"]⟩,
   ⟨brokerInfoName, GoFloat.val (parseOr0 pf r.num_conns), [r.broker_name, "num_conns"]⟩,
   ⟨brokerInfoName, GoFloat.val (parseOr0 pf r.num_long_query), [r.broker_name, "num_long_query"]⟩,
   ⟨brokerInfoName, GoFloat.val (parseOr0 pf r.num_error_query), [r.broker_name, "num_error_query"]⟩,
   ⟨brokerInfoName, GoFloat.val (parseOr0 pf r.num_uniq_error), [r.broker_name, "num_uniq_error"]⟩]

/-- `ScrapeBrokerStatus.Scrape` over already-scanned rows: emits the
per-row samples and always returns without error — parse failures are
discarded. -/
def brokerScrape (pf : String → Option ℚ) (rows : List BrokerRow) :
    List Sample × Option String :=
  (rows.flatMap (brokerRowSamples pf), none)

/-! ## SpaceDB scraper (src/collector/spacedb.go, `ScrapeSpaceDBStatus.Scrape`) -/

/-- `cubrid_spacedb_info`'s family name. -/
def spacedbInfoName : String := buildFQName namespaceStr "spacedb" "info"

/-- One scanned row of `show spacedb demodb`. -/
structure SpacedbRow where
  vol_no : String
  _type : String
  purpose : String
  count : String
  used_pages : String
  free_pages : String
deriving DecidableEq, Repr

/-- The derived used-percentage value of one spacedb row:
`used / (used + free) * 100` in `float64` arithmetic, overridden to `0`
whenever `used == 0`. -/
def usedPercentage (used free : ℚ) : GoFloat :=
  let average := fmulPos (fdiv used (used + free)) 100
  if used = 0 then GoFloat.val 0 else average

/-- The six samples one spacedb row yields under `(vol_no, key)`: note the
source parses the `_type` column again for the `"purpose"` sample (the
`purpose` column itself is scanned but never parsed or emitted), and all
parses discard their error (unparseable fields become `0`). -/
def spacedbRowSamples (pf : String → Option ℚ) (r : SpacedbRow) : List Sample :=
  let fUsedPagesValue := parseOr0 pf r.used_pages
  let fFreePagesValue := parseOr0 pf r.free_pages
  [⟨spacedbInfoName, GoFloat.val (parseOr0 pf r._type), [r.vol_no, "_type"]⟩,
   ⟨spacedbInfoName, GoFloat.val (parseOr0 pf r._type), [r.vol_no, "purpose"]⟩,
   ⟨spacedbInfoName, GoFloat.val (parseOr0 pf r.count), [r.vol_no, "count"]⟩,
   ⟨spacedbInfoName, GoFloat.val fUsedPagesValue, [r.vol_no, "used_pages"]⟩,
   ⟨spacedbInfoName, GoFloat.val fFreePagesValue, [r.vol_no, "free_pages"]⟩,
   ⟨spacedbInfoName, usedPercentage fUsedPagesValue fFreePagesValue, [r.vol_no, "usedPercentage"]⟩]

/-- `ScrapeSpaceDBStatus.Scrape` over already-scanned rows: emits the
per-row samples and always returns without error — parse failures are
discarded. -/
def spacedbScrape (pf : String → Option ℚ) (rows : List SpacedbRow) :
    List Sample × Option String :=
  (rows.flatMap (spacedbRowSamples pf), none)

/-! ## Fan-out / end-of-stream ordering (src/unnamed/part_001,
`Exporter.scrape`'s `sync.WaitGroup` + `Exporter.Collect`)

The `prometheus` registry closes the sample channel only after `Collect`
returns; `Collect` returns only after `scrape` returns; and `scrape`'s
`defer wg.Wait()` makes it return only after every launched goroutine has
called `wg.Done()`.  This is modelled as a labelled transition system: a
goroutine may send only while it is still running, `finish` is its
`wg.Done()`, and `closeStream` (the registry closing the channel) is
enabled only once no goroutine is left and the stream is still open. -/

/-- State of one cycle's fan-out: the launched goroutines still running,
and whether the sample stream has been closed. -/
structure OrchState where
  running : List ℕ
  closed : Bool
deriving DecidableEq, Repr

/-- Observable events of the fan-out. -/
inductive OrchEvent where
  | emit (i : ℕ) (s : Sample)
  | finish (i : ℕ)
  | closeStream
deriving DecidableEq, Repr

/-- One step of the fan-out: `emit` requires the sending goroutine to be
running (in Go, a goroutine's sends precede its `wg.Done()`); `finish`
removes it; `closeStream` requires `wg.Wait()` to have passed — no
goroutine left — and the stream to still be open. -/
def orchStep (st : OrchState) : OrchEvent → Option OrchState
  | OrchEvent.emit i _ => if i ∈ st.running then some st else none
  | OrchEvent.finish i =>
    if i ∈ st.running then some { st with running := st.running.erase i } else none
  | OrchEvent.closeStream =>
    if st.running = [] ∧ st.closed = false then some { st with closed := true } else none

/-- Run a sequence of fan-out events; `none` when some event was not
enabled (no valid execution produces that sequence). -/
def orchRun (st : OrchState) : List OrchEvent → Option OrchState
  | [] => some st
  | e :: es =>
    match orchStep st e with
    | none => none
    | some st' => orchRun st' es

/-- The initial state of a cycle that launched `n` scraper goroutines. -/
def orchInit (n : ℕ) : OrchState :=
  ⟨List.range n, false⟩

/-! ## Theorems -/

/-- C2: for every requested `collect[]` name set `S`, the scrapers the
handler runs are exactly `S ∩ (registered scrapers)` — unknown names are
silently dropped — and an empty `S` runs exactly the default-enabled
subset (under the default per-scraper flags, as in `main`). -/
theorem requested_subset_filtering (params : List String) :
    (params ≠ [] →
      ∀ k : ScraperKind,
        (k ∈ filterScrapers (enabledScrapers defaultFlags) params ↔
          (k.name ∈ params ∧ k ∈ registeredScrapers))) ∧
    (params = [] → filterScrapers (enabledScrapers defaultFlags) params = defaultEnabled) := by
  constructor
  · intro hne k
    have hreg : enabledScrapers defaultFlags = registeredScrapers := by decide
    have hlen : 0 < params.length := List.length_pos.mpr hne
    rw [filterScrapers, if_pos hlen, hreg]
    simp [List.mem_filter, and_comm]
  · intro he
    subst he
    decide

/-- C2 witness: a request naming `statdump` plus an unknown scraper, and
the empty request. -/
theorem requested_subset_filtering_witness :
    (ScraperKind.statdumpK ∈ filterScrapers (enabledScrapers defaultFlags) ["statdump", "nosuch"] ↔
      (ScraperKind.statdumpK.name ∈ (["statdump", "nosuch"] : List String) ∧
        ScraperKind.statdumpK ∈ registeredScrapers)) ∧
    filterScrapers (enabledScrapers defaultFlags) [] = defaultEnabled :=
  ⟨(requested_subset_filtering ["statdump", "nosuch"]).1 (by decide) ScraperKind.statdumpK,
   (requested_subset_filtering []).2 rfl⟩

/-- C4: a caller timeout header of 1.0s with offset 0.25 yields an
effective deadline of 0.75s; with offset 2.0 the offset is ignored and the
header value 1.0 is used unadjusted (policy (a)); and for every positive
header value the effective timeout is positive whatever the offset. -/
theorem timeout_offset_policy (pf : String → Option ℚ) (hpf : pf "1.0" = some 1) :
    deriveContextTimeout "1.0" pf (1/4) = some (3/4) ∧
    deriveContextTimeout "1.0" pf 2 = some 1 ∧
    (∀ t o : ℚ, 0 < t → 0 < effectiveTimeout t o) := by
  refine ⟨?_, ?_, ?_⟩
  · rw [deriveContextTimeout, if_neg (by decide), hpf]
    norm_num [effectiveTimeout]
  · rw [deriveContextTimeout, if_neg (by decide), hpf]
    norm_num [effectiveTimeout]
  · intro t o ht
    by_cases h : o ≥ t
    · simpa [effectiveTimeout, h] using ht
    · have : o < t := not_le.mp h
      simp only [effectiveTimeout, if_neg h]
      linarith

/-- C4 witness: a concrete parse function sending `"1.0"` to `1`. -/
theorem timeout_offset_policy_witness :
    deriveContextTimeout "1.0" (fun v => if v = "1.0" then some 1 else none) (1/4) = some (3/4) ∧
    deriveContextTimeout "1.0" (fun v => if v = "1.0" then some 1 else none) 2 = some 1 ∧
    (0 : ℚ) < effectiveTimeout 1 2 := by
  obtain ⟨h1, h2, h3⟩ :=
    timeout_offset_policy (fun v => if v = "1.0" then some 1 else none) (by simp)
  exact ⟨h1, h2, h3 1 2 (by norm_num)⟩

/-- C8: a non-empty timeout header that does not parse as a float is
ignored — no derived deadline is installed — and the request still runs
the cycle with the usual filtered scraper set. -/
theorem malformed_timeout_ignored (header : String) (pf : String → Option ℚ) (offset : ℚ)
    (params : List String) (handlerScrapers : List ScraperKind)
    (hne : header ≠ "") (hbad : pf header = none) :
    handleRequest header pf offset params handlerScrapers =
      (none, filterScrapers handlerScrapers params) := by
  simp [handleRequest, deriveContextTimeout, hne, hbad]

/-- C8 witness: the header `"abc"` with a parse function rejecting it. -/
theorem malformed_timeout_ignored_witness :
    handleRequest "abc" (fun _ => none) (1/4) [] registeredScrapers =
      (none, filterScrapers registeredScrapers []) :=
  malformed_timeout_ignored "abc" (fun _ => none) (1/4) [] registeredScrapers (by decide) rfl

/-- Each spacedb row's sample list contains its derived used-percentage
sample. -/
lemma spacedb_usedPercentage_mem (pf : String → Option ℚ) (r : SpacedbRow) :
    (⟨spacedbInfoName,
      usedPercentage (parseOr0 pf r.used_pages) (parseOr0 pf r.free_pages),
      [r.vol_no, "usedPercentage"]⟩ : Sample) ∈ spacedbRowSamples pf r := by
  simp [spacedbRowSamples]

/-- C5: the derived used-percentage sample of the spacedb scraper equals
80 for `used_pages=80, free_pages=20`, and equals 0 — not NaN — for
`used_pages=0, free_pages=0` (the `used == 0` clamp avoids the `0/0`
artifact), both as the raw computation and as the sample a row emits. -/
theorem spacedb_ratio_values :
    usedPercentage 80 20 = GoFloat.val 80 ∧
    usedPercentage 0 0 = GoFloat.val 0 ∧
    usedPercentage 0 0 ≠ GoFloat.nan ∧
    (⟨spacedbInfoName, GoFloat.val 80, ["0", "usedPercentage"]⟩ : Sample) ∈
      spacedbRowSamples (fun v => if v = "80" then some 80 else if v = "20" then some 20 else some 0)
        ⟨"0", "2", "PERMANENT", "1", "80", "20"⟩ ∧
    (⟨spacedbInfoName, GoFloat.val 0, ["0", "usedPercentage"]⟩ : Sample) ∈
      spacedbRowSamples (fun _ => some 0) ⟨"0", "2", "PERMANENT", "1", "0", "0"⟩ := by
  have h80 : usedPercentage 80 20 = GoFloat.val 80 := by
    norm_num [usedPercentage, fdiv, fmulPos]
  have h00 : usedPercentage 0 0 = GoFloat.val 0 := by
    norm_num [usedPercentage]
  refine ⟨h80, h00, by simp [h00], ?_, ?_⟩
  · have hm := spacedb_usedPercentage_mem
      (fun v => if v = "80" then some 80 else if v = "20" then some 20 else some 0)
      ⟨"0", "2", "PERMANENT", "1", "80", "20"⟩
    simpa [parseOr0, h80] using hm
  · have hm := spacedb_usedPercentage_mem (fun _ => some 0)
      ⟨"0", "2", "PERMANENT", "1", "0", "0"⟩
    simpa [parseOr0, h00] using hm

/-- Any unparseable value among statdump's rows makes its scrape return an
error (the loop stops at the first failing `strconv.ParseFloat`). -/
lemma statdumpScrape_err_of_bad (pf : String → Option ℚ) (rows : List (String × String))
    (h : ∃ r ∈ rows, pf r.2 = none) : (statdumpScrape pf rows).2.isSome = true := by
  induction rows with
  | nil => simp at h
  | cons hd tl ih =>
    obtain ⟨key, value⟩ := hd
    obtain ⟨r, hr, hbad⟩ := h
    rcases List.mem_cons.mp hr with rfl | hmem
    · simp [statdumpScrape, hbad]
    · cases hv : pf value with
      | none => simp [statdumpScrape, hv]
      | some fv => simpa [statdumpScrape, hv] using ih ⟨r, hmem, hbad⟩

/-- C9: the statdump scraper is strict — any value field that fails to
parse makes its `Scrape` return an error — while the broker-status and
spacedb scrapers never return an error and emit `0` for a field that
fails to parse. -/
theorem numeric_parse_policy (pf : String → Option ℚ)
    (rows : List (String × String)) (hbad : ∃ r ∈ rows, pf r.2 = none)
    (brows : List BrokerRow) (srows : List SpacedbRow)
    (b : BrokerRow) (hb : pf b.num_as = none)
    (s : SpacedbRow) (hs : pf s.count = none) :
    (statdumpScrape pf rows).2.isSome = true ∧
    (brokerScrape pf brows).2 = none ∧
    (spacedbScrape pf srows).2 = none ∧
    (⟨brokerInfoName, GoFloat.val 0, [b.broker_name, "num_as"]⟩ : Sample) ∈
      brokerRowSamples pf b ∧
    (⟨spacedbInfoName, GoFloat.val 0, [s.vol_no, "count"]⟩ : Sample) ∈
      spacedbRowSamples pf s := by
  refine ⟨statdumpScrape_err_of_bad pf rows hbad, rfl, rfl, ?_, ?_⟩
  · have h0 : parseOr0 pf b.num_as = 0 := by simp [parseOr0, hb]
    simp [brokerRowSamples, h0]
  · have h0 : parseOr0 pf s.count = 0 := by simp [parseOr0, hs]
    simp [spacedbRowSamples, h0]

/-- C9 witness: a parse function rejecting everything, one statdump row,
and rows whose `num_as` / `count` fields fail to parse. -/
theorem numeric_parse_policy_witness :
    (statdumpScrape (fun _ => none) [("k", "x")]).2.isSome = true ∧
    (brokerScrape (fun _ => none) []).2 = none ∧
    (spacedbScrape (fun _ => none) []).2 = none ∧
    (⟨brokerInfoName, GoFloat.val 0, ["b", "num_as"]⟩ : Sample) ∈
      brokerRowSamples (fun _ => none)
        ⟨"b", "x", "x", "x", "x", "x", "x", "x", "x", "x", "x", "x", "x", "x", "x"⟩ ∧
    (⟨spacedbInfoName, GoFloat.val 0, ["0", "count"]⟩ : Sample) ∈
      spacedbRowSamples (fun _ => none) ⟨"0", "x", "x", "x", "x", "x"⟩ :=
  numeric_parse_policy (fun _ => none) [("k", "x")] ⟨("k", "x"), by simp, rfl⟩ [] []
    ⟨"b", "x", "x", "x", "x", "x", "x", "x", "x", "x", "x", "x", "x", "x", "x"⟩ rfl
    ⟨"0", "x", "x", "x", "x", "x"⟩ rfl

/-- C10: for every spacedb row, the sample labelled `"purpose"` carries
the float parse of the `type` column — the same value as the `"_type"`
sample — and the `purpose` column's own value is never parsed or emitted:
the row's samples do not depend on it at all. -/
theorem spacedb_purpose_mislabeled (pf : String → Option ℚ) (r : SpacedbRow)
    (p q : String) :
    ((spacedbRowSamples pf r).filter
        (fun s => decide (s.labels = [r.vol_no, "purpose"]))).map Sample.value =
      [GoFloat.val (parseOr0 pf r._type)] ∧
    ((spacedbRowSamples pf r).filter
        (fun s => decide (s.labels = [r.vol_no, "_type"]))).map Sample.value =
      [GoFloat.val (parseOr0 pf r._type)] ∧
    spacedbRowSamples pf { r with purpose := p } =
      spacedbRowSamples pf { r with purpose := q } := by
  refine ⟨?_, ?_, rfl⟩ <;> simp [spacedbRowSamples, List.filter]

/-- C1 (amended): if opening the database connection fails, the cycle is
fatal: no scraper runs and the cycle itself emits no sample (its event
trace is just the failed open attempt), the error gauge is set to 1 and
the scrape counter bumped, but the up gauge and the per-scraper error
counters are left unchanged — the up gauge is not set to 0 — and the
response carries only the bookkeeping series (total-scrapes counter,
error gauge, per-scraper error counters, up gauge). -/
theorem open_failure_fatal (runs : List ScraperRun) (connDur : ℚ) (m : Metrics) :
    (scrape false runs connDur m).2 = [Ev.openAttempt] ∧
    (scrape false runs connDur m).1.error = 1 ∧
    (scrape false runs connDur m).1.cubridUp = m.cubridUp ∧
    (scrape false runs connDur m).1.scrapeErrors = m.scrapeErrors ∧
    (scrape false runs connDur m).1.totalScrapes = m.totalScrapes + 1 ∧
    (∀ s : Sample, Ev.send s ∈ (Collect false runs connDur m).2 →
      s = totalScrapesSample (scrape false runs connDur m).1 ∨
      s = errorSample (scrape false runs connDur m).1 ∨
      s ∈ scrapeErrorsSamples (scrape false runs connDur m).1 ∨
      s = upSample (scrape false runs connDur m).1) := by
  refine ⟨rfl, rfl, rfl, rfl, rfl, ?_⟩
  intro s hs
  simp [Collect, scrape] at hs
  tauto

/-- C1 witness: a failing cycle on fresh metrics; the up-gauge sample it
serves is one of the bookkeeping samples. -/
theorem open_failure_fatal_witness :
    Ev.send (upSample (scrape false [] 0 NewMetrics).1) ∈ (Collect false [] 0 NewMetrics).2 ∧
    (upSample (scrape false [] 0 NewMetrics).1 =
        totalScrapesSample (scrape false [] 0 NewMetrics).1 ∨
      upSample (scrape false [] 0 NewMetrics).1 = errorSample (scrape false [] 0 NewMetrics).1 ∨
      upSample (scrape false [] 0 NewMetrics).1 ∈
        scrapeErrorsSamples (scrape false [] 0 NewMetrics).1 ∨
      upSample (scrape false [] 0 NewMetrics).1 = upSample (scrape false [] 0 NewMetrics).1) :=
  ⟨by simp [Collect, scrape],
   (open_failure_fatal [] 0 NewMetrics).2.2.2.2.2 _ (by simp [Collect, scrape])⟩

/-- C1 counterexample: after a successful cycle (up gauge at 1), a cycle
whose connection open fails leaves the up gauge at 1 — it is not set to
0 — and the response still carries the total-scrapes counter sample, a
sample beyond the up/error gauges. -/
theorem open_failure_up_not_zeroed :
    (scrape false [] 0 (scrape true [] 0 NewMetrics).1).1.cubridUp = 1 ∧
    (scrape false [] 0 (scrape true [] 0 NewMetrics).1).1.cubridUp ≠ 0 ∧
    Ev.send (totalScrapesSample (scrape false [] 0 (scrape true [] 0 NewMetrics).1).1) ∈
      (Collect false [] 0 (scrape true [] 0 NewMetrics).1).2 := by
  refine ⟨rfl, by norm_num [scrape, runScrapers], by simp [Collect, scrape]⟩

/-- C3: with scraper A failing and scraper B succeeding in the same cycle
(on fresh metrics), all of B's samples are in the cycle's output, A's
error counter keyed `collect.<A>` ends at exactly 1, the cycle's error
gauge is 1, and A's duration sample is still emitted. -/
theorem scraper_failure_isolation (A B : ScraperRun) (connDur : ℚ)
    (hA : A.fails = true) (hB : B.fails = false) :
    (∀ s ∈ B.samples, Ev.send s ∈ (scrape true [A, B] connDur NewMetrics).2) ∧
    getErr ("collect." ++ A.name) (scrape true [A, B] connDur NewMetrics).1.scrapeErrors = 1 ∧
    (scrape true [A, B] connDur NewMetrics).1.error = 1 ∧
    Ev.send (durationSample A.dur ("collect." ++ A.name)) ∈
      (scrape true [A, B] connDur NewMetrics).2 := by
  refine ⟨?_, ?_, ?_, ?_⟩
  · intro s hs
    simp [scrape, runScrapers, runScraper, hA, hB]
    tauto
  · simp [scrape, runScrapers, runScraper, hA, hB, getErr, incErr, NewMetrics]
  · simp [scrape, runScrapers, runScraper, hA, hB, NewMetrics]
  · simp [scrape, runScrapers, runScraper, hA, hB]

/-- Every event the fan-out loop contributes is a channel send (the
goroutines only send samples; they never touch the connection events). -/
lemma runScrapers_sends (runs : List ScraperRun) :
    ∀ (m : Metrics), ∀ e ∈ (runScrapers m runs).2, ∃ s, e = Ev.send s := by
  induction runs with
  | nil => intro m e he; simp [runScrapers] at he
  | cons r rs ih =>
    intro m e he
    simp only [runScrapers, runScraper, List.mem_append] at he
    rcases he with hl | hr
    · simp only [List.mem_append, List.mem_map, List.mem_singleton] at hl
      rcases hl with ⟨s, _, rfl⟩ | rfl
      · exact ⟨s, rfl⟩
      · exact ⟨durationSample r.dur ("collect." ++ r.name), rfl⟩
    · exact ih _ e hr

/-- An event that is not a send never occurs in the fan-out's trace. -/
lemma runScrapers_count_nonsend (runs : List ScraperRun) (m : Metrics) (e : Ev)
    (he : ∀ s, e ≠ Ev.send s) : (runScrapers m runs).2.count e = 0 := by
  rw [List.count_eq_zero]
  intro hmem
  obtain ⟨s, rfl⟩ := runScrapers_sends runs m e hmem
  exact he s rfl

/-- C7: every scrape cycle makes exactly one connection-open attempt; when
the open succeeds the connection is configured exactly once each with a
cap of one open connection, one idle connection and a sixty-second
maximum lifetime, and closed exactly once; when the open fails there is
no opened connection and no close — no leak, no double-close. -/
theorem connection_lifecycle (openOk : Bool) (runs : List ScraperRun) (connDur : ℚ)
    (m : Metrics) :
    (scrape openOk runs connDur m).2.count Ev.openAttempt = 1 ∧
    (openOk = true →
      (scrape openOk runs connDur m).2.count Ev.closeConn = 1 ∧
      (scrape openOk runs connDur m).2.count (Ev.setMaxOpenConns 1) = 1 ∧
      (scrape openOk runs connDur m).2.count (Ev.setMaxIdleConns 1) = 1 ∧
      (scrape openOk runs connDur m).2.count (Ev.setConnMaxLifetimeSeconds 60) = 1) ∧
    (openOk = false → (scrape openOk runs connDur m).2.count Ev.closeConn = 0) := by
  cases openOk with
  | false =>
    refine ⟨by simp [scrape], by simp, fun _ => by simp [scrape]⟩
  | true =>
    have hz : ∀ e : Ev, (∀ s, e ≠ Ev.send s) →
        (runScrapers { { m with totalScrapes := m.totalScrapes + 1 } with
          cubridUp := 1, error := 0 } runs).2.count e = 0 :=
      fun e he => runScrapers_count_nonsend runs _ e he
    refine ⟨?_, fun _ => ⟨?_, ?_, ?_, ?_⟩, by simp⟩ <;>
      simp [scrape, List.count_append, List.count_cons,
        hz Ev.openAttempt (by intro s h; cases h),
        hz Ev.closeConn (by intro s h; cases h),
        hz (Ev.setMaxOpenConns 1) (by intro s h; cases h),
        hz (Ev.setMaxIdleConns 1) (by intro s h; cases h),
        hz (Ev.setConnMaxLifetimeSeconds 60) (by intro s h; cases h)]

/-- C7 witness: a successful and a failed cycle with no scrapers. -/
theorem connection_lifecycle_witness :
    (scrape true [] 0 NewMetrics).2.count Ev.openAttempt = 1 ∧
    (scrape true [] 0 NewMetrics).2.count Ev.closeConn = 1 ∧
    (scrape true [] 0 NewMetrics).2.count (Ev.setMaxOpenConns 1) = 1 ∧
    (scrape false [] 0 NewMetrics).2.count Ev.closeConn = 0 := by
  obtain ⟨h1, h2, _⟩ := connection_lifecycle true [] 0 NewMetrics
  obtain ⟨_, _, h3⟩ := connection_lifecycle false [] 0 NewMetrics
  exact ⟨h1, (h2 rfl).1, (h2 rfl).2.1, h3 rfl⟩

/-- Running a concatenated event sequence is running the two parts in
order. -/
lemma orchRun_append (a b : List OrchEvent) :
    ∀ st : OrchState, orchRun st (a ++ b) =
      (orchRun st a).bind fun st1 => orchRun st1 b := by
  induction a with
  | nil => intro st; simp [orchRun]
  | cons e es ih =>
    intro st
    simp only [List.cons_append, orchRun]
    cases h : orchStep st e with
    | none => simp
    | some st1 => simp [ih st1]

/-- Once no goroutine is left running, every enabled step keeps it so. -/
lemma orchStep_empty_running (st st' : OrchState) (e : OrchEvent)
    (h : orchStep st e = some st') (hr : st.running = []) : st'.running = [] := by
  cases e with
  | emit i s => simp [orchStep, hr] at h
  | finish i => simp [orchStep, hr] at h
  | closeStream =>
    simp only [orchStep] at h
    split at h
    · cases h
      exact hr
    · cases h

/-- From a state with no goroutine running, no valid continuation can
emit a sample. -/
lemma no_emit_from_empty (tr : List OrchEvent) :
    ∀ st st' : OrchState, orchRun st tr = some st' → st.running = [] →
      ∀ (i : ℕ) (s : Sample), OrchEvent.emit i s ∉ tr := by
  induction tr with
  | nil => intro st st' _ _ i s hmem; simp at hmem
  | cons e es ih =>
    intro st st' hrun hr i s hmem
    rcases List.mem_cons.mp hmem with rfl | hmem'
    · simp [orchRun, orchStep, hr] at hrun
    · cases hstep : orchStep st e with
      | none => simp [orchRun, hstep] at hrun
      | some st1 =>
        have h1 : st1.running = [] := orchStep_empty_running st st1 e hstep hr
        have h2 : orchRun st1 es = some st' := by
          simpa [orchRun, hstep] using hrun
        exact ih st1 st' h2 h1 i s hmem'

/-- C6: in every valid execution of one cycle's fan-out, no sample is
emitted after the stream is closed: `closeStream` is enabled only once
every launched goroutine has finished (`wg.Wait` precedes `scrape`'s
return, which precedes the registry closing the channel), so every
`emit` happens strictly before end-of-stream and every sample is consumed
by the encoder draining the channel up to its closure. -/
theorem no_emit_after_close (n : ℕ) (tr : List OrchEvent) (st' : OrchState)
    (hrun : orchRun (orchInit n) tr = some st')
    (pre post : List OrchEvent) (hsplit : tr = pre ++ OrchEvent.closeStream :: post) :
    ∀ (i : ℕ) (s : Sample), OrchEvent.emit i s ∉ post := by
  subst hsplit
  rw [orchRun_append] at hrun
  cases hpre : orchRun (orchInit n) pre with
  | none => rw [hpre] at hrun; simp at hrun
  | some st1 =>
    rw [hpre] at hrun
    simp only [Option.some_bind] at hrun
    cases hstep : orchStep st1 OrchEvent.closeStream with
    | none => simp [orchRun, hstep] at hrun
    | some st2 =>
      have h2 : st2.running = [] := by
        simp only [orchStep] at hstep
        split at hstep
        · next hcond =>
          cases hstep
          exact hcond.1
        · cases hstep
      have hrun2 : orchRun st2 post = some st' := by
        simpa [orchRun, hstep] using hrun
      exact no_emit_from_empty post st2 st' hrun2 h2

/-- C6 witness: one goroutine emits a sample and finishes, then the stream
closes; the trace is valid and nothing follows the close. -/
theorem no_emit_after_close_witness :
    orchRun (orchInit 1)
        [OrchEvent.emit 0 (durationSample 0 "collect.statdump"), OrchEvent.finish 0,
         OrchEvent.closeStream] = some ⟨[], true⟩ ∧
    OrchEvent.emit 0 (durationSample 0 "collect.statdump") ∉ ([] : List OrchEvent) :=
  ⟨by decide,
   no_emit_after_close 1
    [OrchEvent.emit 0 (durationSample 0 "collect.statdump"), OrchEvent.finish 0,
     OrchEvent.closeStream] ⟨[], true⟩
    (by decide)
    [OrchEvent.emit 0 (durationSample 0 "collect.statdump"), OrchEvent.finish 0] [] rfl
    0 (durationSample 0 "collect.statdump")⟩

/-- C3 witness: statdump fails while broker-status succeeds with one
sample; the sample, counter, gauge and duration facts all hold. -/
theorem scraper_failure_isolation_witness :
    Ev.send (⟨brokerInfoName, GoFloat.val 0, ["b", "num_as"]⟩ : Sample) ∈
      (scrape true
        [⟨"statdump", [], true, 0⟩,
         ⟨"broker_status", [⟨brokerInfoName, GoFloat.val 0, ["b", "num_as"]⟩], false, 0⟩]
        0 NewMetrics).2 ∧
    getErr ("collect." ++ "statdump")
      (scrape true
        [⟨"statdump", [], true, 0⟩,
         ⟨"broker_status", [⟨brokerInfoName, GoFloat.val 0, ["b", "num_as"]⟩], false, 0⟩]
        0 NewMetrics).1.scrapeErrors = 1 ∧
    (scrape true
        [⟨"statdump", [], true, 0⟩,
         ⟨"broker_status", [⟨brokerInfoName, GoFloat.val 0, ["b", "num_as"]⟩], false, 0⟩]
        0 NewMetrics).1.error = 1 ∧
    Ev.send (durationSample 0 ("collect." ++ "statdump")) ∈
      (scrape true
        [⟨"statdump", [], true, 0⟩,
         ⟨"broker_status", [⟨brokerInfoName, GoFloat.val 0, ["b", "num_as"]⟩], false, 0⟩]
        0 NewMetrics).2 := by
  obtain ⟨h1, h2, h3, h4⟩ := scraper_failure_isolation
    ⟨"statdump", [], true, 0⟩
    ⟨"broker_status", [⟨brokerInfoName, GoFloat.val 0, ["b", "num_as"]⟩], false, 0⟩
    0 rfl rfl
  exact ⟨h1 _ (by simp), h2, h3, h4⟩
